import Mathlib

/-!
Verification of the PythonHTTP repository.

Shallow embedding of:
* the line-delimited RPC server (`src/async_app/server.py`, class
  `RpcServerProtocol`, registry `FUNCTIONS` with `add`, `upper`, `sleep`),
* the asyncio static-file HTTP responder (`src/async_app/server.py`,
  class `HttpServerProtocol`),
* the response writers of the synchronous static-file handler
  (`src/server.py`, class `TestHTTPHandler`).

Python strings are modelled as `List Char` where character-level buffer
manipulation matters (frame decoding, HTTP parsing) and as `String` for
the JSON-level values handled by the dispatcher.  `json.loads` is an
external library routine, so the dispatcher is embedded as a function of
the parse outcome (`Except String PyVal`): `Except.error e` models
`json.loads` raising an exception whose repr is `e`.  Python `float`
values are not exercised by any claim and JSON numbers are modelled as
`Int`.
-/

/-- Python values as produced by `json.loads`: `None`, booleans, numbers
(modelled as `Int`), strings, lists, and string-keyed dicts. -/
inductive PyVal : Type where
  | none : PyVal
  | bool : Bool → PyVal
  | int : Int → PyVal
  | str : String → PyVal
  | list : List PyVal → PyVal
  | dict : List (String × PyVal) → PyVal

/-- The type of a registered callable: positional arguments, keyword
arguments, and either a returned value (`Except.ok`) or a raised
exception's repr (`Except.error`). -/
def PyFn : Type := List PyVal → List (String × PyVal) → Except String PyVal

/-- Python `a + b` on the modelled values: numeric addition, string and
list concatenation, and `TypeError` otherwise. -/
def pyAdd : PyVal → PyVal → Except String PyVal
  | PyVal.int a, PyVal.int b => Except.ok (PyVal.int (a + b))
  | PyVal.str a, PyVal.str b => Except.ok (PyVal.str (a ++ b))
  | PyVal.list a, PyVal.list b => Except.ok (PyVal.list (a ++ b))
  | _, _ => Except.error ("TypeError: unsupported operand type(s) for +")

/-- `add(a, b) -> a + b` from `src/async_app/server.py` (registered as
`"add"`); the cases enumerate the Python calling conventions for the
two-parameter signature `(a, b)`. -/
def add : PyFn := fun args kwargs =>
  match args, kwargs with
  | [a, b], [] => pyAdd a b
  | [a], [("b", b)] => pyAdd a b
  | [], [("a", a), ("b", b)] => pyAdd a b
  | [], [("b", b), ("a", a)] => pyAdd a b
  | _, _ => Except.error ("TypeError: add() received invalid arguments")

/-- `upper(s) -> s.upper()` from `src/async_app/server.py` (registered as
`"upper"`); calling `.upper()` on a non-string raises `AttributeError`. -/
def upper : PyFn := fun args kwargs =>
  match args, kwargs with
  | [PyVal.str s], [] => Except.ok (PyVal.str s.toUpper)
  | [], [("s", PyVal.str s)] => Except.ok (PyVal.str s.toUpper)
  | [_], [] => Except.error ("AttributeError: object has no attribute upper")
  | [], [("s", _)] => Except.error ("AttributeError: object has no attribute upper")
  | _, _ => Except.error ("TypeError: upper() received invalid arguments")

/-- `sleep(t) -> time.sleep(t)` from `src/async_app/server.py`
(registered as `"sleep"`): returns `None`; a negative duration raises
`ValueError`, a non-numeric one `TypeError`. -/
def sleep : PyFn := fun args kwargs =>
  match args, kwargs with
  | [PyVal.int t], [] =>
      if 0 ≤ t then Except.ok PyVal.none
      else Except.error ("ValueError: sleep length must be non-negative")
  | [], [("t", PyVal.int t)] =>
      if 0 ≤ t then Except.ok PyVal.none
      else Except.error ("ValueError: sleep length must be non-negative")
  | [_], [] => Except.error ("TypeError: an integer is required")
  | _, _ => Except.error ("TypeError: sleep() received invalid arguments")

/-- The module-level registry `FUNCTIONS` of `src/async_app/server.py`,
populated once by the `@register(...)` decorators and immutable while
serving. -/
def FUNCTIONS : List (String × PyFn) :=
  [("add", add), ("upper", upper), ("sleep", sleep)]

/-- Python `dict.get(key)` on a dict built by `json.loads` (duplicate
JSON keys resolve to the last occurrence): `Option.none` when the key is
absent. -/
def pyGet (fields : List (String × PyVal)) (key : String) : Option PyVal :=
  ((fields.filter (fun kv => kv.1 == key)).map (fun kv => kv.2)).getLast?

/-- Python `repr` of a modelled value, as used by the
`f"unknown function {func_name!r}"` message. -/
def pyRepr : PyVal → String
  | PyVal.none => "None"
  | PyVal.bool b => if b then "True" else "False"
  | PyVal.int n => toString n
  | PyVal.str s => "\x27" ++ s ++ "\x27"
  | PyVal.list _ => "[...]"
  | PyVal.dict _ => "\x7b...\x7d"

/-- `*args` unpacking at a call site: lists unpack elementwise, strings
into one-character strings, dicts into their keys; anything else raises
`TypeError`. -/
def starArgs : PyVal → Except String (List PyVal)
  | PyVal.list xs => Except.ok xs
  | PyVal.str s => Except.ok (s.toList.map (fun c => PyVal.str c.toString))
  | PyVal.dict fs => Except.ok (fs.map (fun kv => PyVal.str kv.1))
  | _ => Except.error ("TypeError: argument after * must be an iterable")

/-- `**kwargs` unpacking at a call site: requires a mapping. -/
def starKwargs : PyVal → Except String (List (String × PyVal))
  | PyVal.dict fs => Except.ok fs
  | _ => Except.error ("TypeError: argument after ** must be a mapping")

/-- `RpcServerProtocol._execute_function` (src/async_app/server.py lines
223-234).  `inspect.iscoroutinefunction` is `False` for every function
registered in this module, so the `asyncio.to_thread` branch always
runs: the callable is invoked off the event loop and any exception it
raises is converted to an `error` payload.  `FUNCTIONS[func_name]` would
raise `KeyError` for an absent name (the caller has already checked
membership); that exception propagates to the caller (`Except.error`). -/
def execute_function (funcs : List (String × PyFn)) (name : String)
    (args : List PyVal) (kwargs : List (String × PyVal)) : Except String PyVal :=
  match funcs.lookup name with
  | Option.none => Except.error ("KeyError: " ++ name)
  | Option.some f =>
      Except.ok (match f args kwargs with
        | Except.ok r => PyVal.dict [("result", r)]
        | Except.error e => PyVal.dict [("error", PyVal.str e)])

/-- The body of the `try` block of `RpcServerProtocol._handle_line`
(src/async_app/server.py lines 206-214), after `json.loads`:
`request.get` raises `AttributeError` unless the parsed value is a dict;
missing fields default to `None` / `[]` / an empty dict; a `func_name`
that is not a key of the registry (keys are strings, so any non-string
`func_name` in particular) produces the unknown-function response;
otherwise the arguments are unpacked and the function executed. -/
def dispatch (funcs : List (String × PyFn)) (request : PyVal) :
    Except String PyVal :=
  match request with
  | PyVal.dict fields =>
      let func_name := (pyGet fields "func_name").getD PyVal.none
      let argsVal := (pyGet fields "args").getD (PyVal.list [])
      let kwargsVal := (pyGet fields "kwargs").getD (PyVal.dict [])
      match func_name with
      | PyVal.str name =>
          if funcs.any (fun kv => kv.1 == name) then
            match starArgs argsVal with
            | Except.error e => Except.error e
            | Except.ok args =>
                match starKwargs kwargsVal with
                | Except.error e => Except.error e
                | Except.ok kwargs => execute_function funcs name args kwargs
          else
            Except.ok (PyVal.dict
              [("error", PyVal.str ("unknown function " ++ pyRepr func_name))])
      | other =>
          Except.ok (PyVal.dict
            [("error", PyVal.str ("unknown function " ++ pyRepr other))])
  | _ => Except.error ("AttributeError: object has no attribute get")

/-- `RpcServerProtocol._handle_line` (src/async_app/server.py lines
205-216) up to the response value: the whole request handling runs in a
`try` whose `except` converts any raised exception `e` into
`{"error": f"bad request: {e!r}"}`.  `parsed` is the outcome of
`json.loads(line)`. -/
def handle_lineGen (funcs : List (String × PyFn))
    (parsed : Except String PyVal) : PyVal :=
  match parsed.bind (dispatch funcs) with
  | Except.ok response => response
  | Except.error e => PyVal.dict [("error", PyVal.str ("bad request: " ++ e))]

/-- `_handle_line` with the module's actual registry. -/
def handle_line (parsed : Except String PyVal) : PyVal :=
  handle_lineGen FUNCTIONS parsed

/-- The key list of a response value (empty for non-dicts). -/
def respKeys : PyVal → List String
  | PyVal.dict fs => fs.map (fun kv => kv.1)
  | _ => []

/-- `True` when a response dict carries the given key. -/
def hasKey (v : PyVal) (key : String) : Bool :=
  match v with
  | PyVal.dict fs => fs.any (fun kv => kv.1 == key)
  | _ => false

/-- A decoded frame that the spec calls malformed: the raw line failed
to parse as JSON, or parsed to a non-object, or to an object without a
`"func_name"` key. -/
def malformedFrame : Except String PyVal → Prop
  | Except.error _ => True
  | Except.ok (PyVal.dict fs) => pyGet fs "func_name" = Option.none
  | Except.ok _ => True

/-! ### Frame decoder (`RpcServerProtocol.data_received`) -/

/-- The whitespace characters removed by Python `str.strip()` (the ASCII
ones; the connection protocol is ASCII). -/
def isSpace (c : Char) : Bool :=
  c == ' ' || c == '\t' || c == '\n' || c == '\r' || c == '\x0b' || c == '\x0c'

/-- Python `line.strip()`: drop leading and trailing whitespace. -/
def pyStrip (l : List Char) : List Char :=
  ((l.dropWhile isSpace).reverse.dropWhile isSpace).reverse

theorem dropWhile_tail_length_lt (buf : List Char) (h : '\n' ∈ buf) :
    ((buf.dropWhile (fun c => c != '\n')).tail).length < buf.length := by
  have hne : buf.dropWhile (fun c => c != '\n') ≠ [] := by
    intro hnil
    have hall := List.dropWhile_eq_nil_iff.mp hnil '\n' h
    simp at hall
  have hle : (buf.dropWhile (fun c => c != '\n')).length ≤ buf.length :=
    (List.dropWhile_suffix (fun c => c != '\n')).length_le
  cases hdw : buf.dropWhile (fun c => c != '\n') with
  | nil => exact absurd hdw hne
  | cons a as =>
      rw [hdw] at hle
      simp only [List.tail_cons]
      simp only [List.length_cons] at hle
      omega

/-- The `while "\n" in self._buffer` loop of
`RpcServerProtocol.data_received` (src/async_app/server.py lines
197-203): split the buffer at the first newline, strip the line, skip it
if empty, otherwise emit it as a frame (the source schedules
`_handle_line(line)` for it); the first component is the buffer left
when no delimiter remains. -/
def drain (buf : List Char) : List Char × List (List Char) :=
  if h : '\n' ∈ buf then -- h is used by the termination proof
    let rest := (buf.dropWhile (fun c => c != '\n')).tail
    let stripped := pyStrip (buf.takeWhile (fun c => c != '\n'))
    let r := drain rest
    (r.1, if stripped == [] then r.2 else stripped :: r.2)
  else (buf, [])
termination_by buf.length
decreasing_by exact dropWhile_tail_length_lt buf h

/-- `RpcServerProtocol.data_received` (src/async_app/server.py lines
192-203): append the decoded chunk to the connection buffer, then drain
every complete line. -/
def rpc_data_received (buf data : List Char) : List Char × List (List Char) :=
  drain (buf ++ data)

/-- Spec-side description of a buffer made of complete newline-terminated
segments followed by a partial trailing segment. -/
def joinNL (ls : List (List Char)) : List Char :=
  (ls.map (fun l => l ++ ['\n'])).flatten

theorem drain_no_newline (buf : List Char) (h : '\n' ∉ buf) :
    drain buf = (buf, []) := by
  unfold drain
  rw [dif_neg h]

theorem drain_newline (buf : List Char) (h : '\n' ∈ buf) :
    drain buf =
      ((drain ((buf.dropWhile (fun c => c != '\n')).tail)).1,
        if pyStrip (buf.takeWhile (fun c => c != '\n')) == [] then
          (drain ((buf.dropWhile (fun c => c != '\n')).tail)).2
        else
          pyStrip (buf.takeWhile (fun c => c != '\n')) ::
            (drain ((buf.dropWhile (fun c => c != '\n')).tail)).2) := by
  conv_lhs => unfold drain
  rw [dif_pos h]

theorem takeWhile_append_newline (l r : List Char) (hl : '\n' ∉ l) :
    (l ++ '\n' :: r).takeWhile (fun c => c != '\n') = l := by
  induction l with
  | nil => simp [List.takeWhile_cons]
  | cons a as ih =>
      have ha : a ≠ '\n' := fun hEq => hl (by simp [hEq])
      have has : '\n' ∉ as := fun hmem => hl (by simp [hmem])
      simp only [List.cons_append, List.takeWhile_cons]
      simp [ha, ih has]

theorem dropWhile_append_newline (l r : List Char) (hl : '\n' ∉ l) :
    (l ++ '\n' :: r).dropWhile (fun c => c != '\n') = '\n' :: r := by
  induction l with
  | nil => simp [List.dropWhile_cons]
  | cons a as ih =>
      have ha : a ≠ '\n' := fun hEq => hl (by simp [hEq])
      have has : '\n' ∉ as := fun hmem => hl (by simp [hmem])
      simp only [List.cons_append, List.dropWhile_cons]
      simp [ha, ih has]

theorem drain_join (ls : List (List Char)) (rest : List Char)
    (hls : ∀ l ∈ ls, '\n' ∉ l) (hrest : '\n' ∉ rest) :
    drain (joinNL ls ++ rest) =
      (rest, (ls.map pyStrip).filter (fun l => l != [])) := by
  induction ls with
  | nil =>
      simpa [joinNL] using drain_no_newline rest hrest
  | cons l ls ih =>
      have hl : '\n' ∉ l := hls l (by simp)
      have hls' : ∀ x ∈ ls, '\n' ∉ x := fun x hx => hls x (by simp [hx])
      have hshape : joinNL (l :: ls) ++ rest = l ++ '\n' :: (joinNL ls ++ rest) := by
        simp [joinNL]
      rw [hshape]
      have hmem : '\n' ∈ l ++ '\n' :: (joinNL ls ++ rest) := by simp
      rw [drain_newline _ hmem, takeWhile_append_newline _ _ hl,
        dropWhile_append_newline _ _ hl]
      simp only [List.tail_cons]
      rw [ih hls']
      simp only [List.map_cons, List.filter_cons]
      cases hst : (pyStrip l == []) with
      | true =>
          have hnil : pyStrip l = [] := by simpa using hst
          simp [hst, hnil]
      | false =>
          have hnil : pyStrip l ≠ [] := by simpa using hst
          simp [hst, hnil]

theorem dropWhile_head_not {p : Char → Bool} :
    ∀ {l : List Char} {x : Char} {xs : List Char},
      l.dropWhile p = x :: xs → p x = false := by
  intro l
  induction l with
  | nil => intro x xs h; simp at h
  | cons a as ih =>
      intro x xs h
      rw [List.dropWhile_cons] at h
      by_cases hp : p a
      · rw [if_pos hp] at h
        exact ih h
      · rw [if_neg hp] at h
        cases h
        exact Bool.of_not_eq_true hp

theorem pyStrip_getLast_not_space (l : List Char) (c : Char)
    (h : (pyStrip l).getLast? = some c) : isSpace c = false := by
  unfold pyStrip at h
  rw [List.getLast?_reverse] at h
  cases hdw : ((l.dropWhile isSpace).reverse.dropWhile isSpace) with
  | nil => rw [hdw] at h; simp at h
  | cons x xs =>
      rw [hdw] at h
      simp only [List.head?_cons, Option.some.injEq] at h
      subst h
      exact dropWhile_head_not hdw

theorem drain_frames_aux :
    ∀ n (buf : List Char), buf.length ≤ n →
      ∀ f ∈ (drain buf).2, f ≠ [] ∧
        ∀ c, f.getLast? = some c → isSpace c = false := by
  intro n
  induction n with
  | zero =>
      intro buf hlen f hf
      have hbuf : buf = [] := List.length_eq_zero.mp (Nat.le_zero.mp hlen)
      subst hbuf
      rw [drain_no_newline [] (by simp)] at hf
      simp at hf
  | succ n ih =>
      intro buf hlen f hf
      by_cases h : '\n' ∈ buf
      · rw [drain_newline buf h] at hf
        have hrest : ((buf.dropWhile (fun c => c != '\n')).tail).length ≤ n := by
          have := dropWhile_tail_length_lt buf h
          omega
        simp only at hf
        cases hst : (pyStrip (buf.takeWhile (fun c => c != '\n')) == []) with
        | true =>
            rw [hst] at hf
            simp only [if_pos rfl] at hf
            exact ih _ hrest f hf
        | false =>
            rw [hst] at hf
            simp only [Bool.false_eq_true, if_neg] at hf
            rcases List.mem_cons.mp hf with hEq | hmem
            · subst hEq
              constructor
              · intro hnil
                rw [hnil] at hst
                simp at hst
              · intro c hc
                exact pyStrip_getLast_not_space _ c hc
            · exact ih _ hrest f hmem
      · rw [drain_no_newline buf h] at hf
        simp at hf

/-! ### Connection lifecycle (`transport.write` / `transport.close`)

Each `_handle_line` task ends with `self.transport.write(out.encode())`
immediately followed by `self.transport.close()` (src/async_app/server.py
lines 218-221), with no `await` in between, so the pair is one atomic
scheduler step.  An asyncio transport discards data written after
`close()` and a second `close()` is a no-op, so the peer only observes
frames written while the transport was still open.  A run is the
sequence of response frames in the order in which their dispatch tasks
complete (any interleaving of the concurrently dispatched frames). -/

/-- The peer-observable side of an asyncio transport: the frames that
will actually be delivered, and whether `close()` has been called. -/
structure Transport where
  written : List PyVal
  closed : Bool

/-- `transport.write`: a write on a closed (or closing) transport is
discarded and never reaches the peer. -/
def Transport.write (t : Transport) (frame : PyVal) : Transport :=
  if t.closed then t else { t with written := t.written ++ [frame] }

/-- `transport.close` (idempotent). -/
def Transport.close (t : Transport) : Transport :=
  { t with closed := true }

/-- The tail of `RpcServerProtocol._handle_line` (lines 218-221): write
the serialized response frame, then close the connection. -/
def handle_line_finish (t : Transport) (response : PyVal) : Transport :=
  (t.write response).close

/-- Completion of a whole connection: every dispatched frame's task
eventually runs `handle_line_finish`, in completion order `rs`. -/
def run_completions (t : Transport) (rs : List PyVal) : Transport :=
  rs.foldl handle_line_finish t

/-- The transport of a freshly accepted connection. -/
def freshTransport : Transport :=
  { written := [], closed := false }

theorem run_completions_closed (t : Transport) (ht : t.closed = true) :
    ∀ rs, run_completions t rs = t := by
  intro rs
  induction rs with
  | nil => rfl
  | cons r rs ih =>
      have hstep : handle_line_finish t r = t := by
        unfold handle_line_finish Transport.write Transport.close
        rw [if_pos ht]
        cases t
        simp_all
      calc run_completions t (r :: rs)
          = run_completions (handle_line_finish t r) rs := rfl
        _ = run_completions t rs := by rw [hstep]
        _ = t := ih

/-! ### Static-file HTTP responder -/

/-- The filesystem as seen by the handlers (`Path.is_dir`,
`Path.exists`, `Path.stat().st_size`, `open(...).read()`), abstracted as
an environment indexed by the resolved path. -/
structure Fsys where
  isDir : List Char → Bool
  pathExists : List Char → Bool
  size : List Char → Nat
  content : List Char → List Char

/-- Python `s.split(sep, 1)` for a non-empty separator: the text before
the first occurrence of `sep` and the text after it, or `Option.none`
when `sep` does not occur. -/
def splitSub (sep : List Char) : List Char → Option (List Char × List Char)
  | [] => Option.none
  | c :: cs =>
      if sep.isPrefixOf (c :: cs) then Option.some ([], (c :: cs).drop sep.length)
      else
        match splitSub sep cs with
        | Option.some (pre, post) => Option.some (c :: pre, post)
        | Option.none => Option.none

/-- Python `sep in s` for a string separator. -/
def containsSub (sep l : List Char) : Bool :=
  (splitSub sep l).isSome

/-- Python `s.split(c)` for a one-character separator (always returns at
least one part). -/
def splitChar (sep : Char) : List Char → List (List Char)
  | [] => [[]]
  | c :: cs =>
      let parts := splitChar sep cs
      if c == sep then [] :: parts
      else
        match parts with
        | [] => [[c]]
        | p :: ps => (c :: p) :: ps

/-- The headers loop of `HttpServerProtocol._parse_request`
(src/async_app/server.py lines 68-72): `while "\r\n\r\n" in request`,
split off one `\r\n`-terminated header and index `header.split(": ")[1]`
(an `IndexError` when the header holds no `": "`).  The parsed headers
are a local variable the source never uses afterwards, so only the
raised exception matters; the loop consumes at least two characters per
iteration, so `request.length` steps of fuel make the recursion total. -/
def parse_headers_fuel (fuel : Nat) (request : List Char) :
    Except (List Char) Unit :=
  match fuel with
  | 0 => Except.ok ()
  | fuel + 1 =>
      if containsSub ("\r\n\r\n".toList) request then
        match splitSub ("\r\n".toList) request with
        | Option.some (header, rest) =>
            if containsSub (": ".toList) header then parse_headers_fuel fuel rest
            else Except.error ("IndexError: list index out of range".toList)
        | Option.none => Except.ok ()
      else Except.ok ()

/-- `HttpServerProtocol._parse_request` (src/async_app/server.py lines
58-73), returning the command and path it stores on `self`:
`data.split("\r\n", 1)` raises `ValueError` when the chunk holds no
`"\r\n"` (the two-name unpacking fails); `start_line.split(" ")[1]`
raises `IndexError` when the start line holds no space. -/
def parse_request (data : List Char) :
    Except (List Char) (List Char × List Char) := do
  let startAndRest ← match splitSub ("\r\n".toList) data with
    | Option.some x => Except.ok x
    | Option.none =>
        Except.error ("ValueError: not enough values to unpack (expected 2, got 1)".toList)
  let start_line := startAndRest.1
  let request := startAndRest.2
  let parts := splitChar ' ' start_line
  let command := parts.headD []
  let path ← match parts.get? 1 with
    | Option.some p => Except.ok p
    | Option.none => Except.error ("IndexError: list index out of range".toList)
  let _ ← parse_headers_fuel request.length request
  Except.ok (command, path)

/-- `HttpServerProtocol._validate_path` (src/async_app/server.py lines
75-85): resolve the request path against the working directory
(`Path.cwd() / self.path.lstrip("/")`), descend into `index.html` for a
directory, and report whether the resolved path exists; the first
component is the resolved `self.path`. -/
def validate_path (fs : Fsys) (cwd rawPath : List Char) : List Char × Bool :=
  let p := cwd ++ '/' :: (rawPath.dropWhile (fun c => c == '/'))
  let p := if fs.isDir p then p ++ ("/index.html".toList) else p
  (p, fs.pathExists p)

/-- `http.HTTPStatus(code).phrase` for the codes the handlers emit. -/
def http_phrase : Nat → List Char
  | 200 => "OK".toList
  | 403 => "Forbidden".toList
  | 404 => "Not Found".toList
  | 405 => "Method Not Allowed".toList
  | _ => []

/-- Decimal rendering of a number interpolated into an f-string. -/
def natChars (n : Nat) : List Char :=
  (toString n).toList

/-- Python `dict.update(**kwargs)`: existing keys keep their position and
take the new value; new keys are appended in order. -/
def dict_update (base upd : List (List Char × List Char)) :
    List (List Char × List Char) :=
  upd.foldl
    (fun acc kv =>
      if acc.any (fun p => p.1 == kv.1) then
        acc.map (fun p => if p.1 == kv.1 then (p.1, kv.2) else p)
      else acc ++ [kv])
    base

/-- Python `"\r\n".join(parts)`. -/
def join_crlf : List (List Char) → List Char
  | [] => []
  | [x] => x
  | x :: xs => x ++ ("\r\n".toList) ++ join_crlf xs

/-- The `f"{k}: {v}"` header lines joined by `"\r\n"`, as built by both
`_write_headers` implementations. -/
def header_lines (hs : List (List Char × List Char)) : List Char :=
  join_crlf (hs.map (fun p => p.1 ++ (": ".toList) ++ p.2))

/-- `self.headers` of `HttpServerProtocol.__init__`
(src/async_app/server.py lines 22-26). -/
def http_headers_default : List (List Char × List Char) :=
  [("Content-Type".toList, "text/html".toList),
   ("Content-Length".toList, "0".toList),
   ("Connection".toList, "close".toList)]

/-- `HttpServerProtocol._write_response_line` (lines 117-120): the
status line carries its `\r\n` terminator. -/
def http_write_response_line (code : Nat) : List Char :=
  ("HTTP/1.1 ".toList) ++ natChars code ++ ' ' :: http_phrase code ++ ("\r\n".toList)

/-- `HttpServerProtocol._write_headers` (lines 122-128): default headers
updated with the keyword overrides, joined, then `b"\r\n\r\n"`. -/
def http_write_headers (upd : List (List Char × List Char)) : List Char :=
  header_lines (dict_update http_headers_default upd) ++ ("\r\n\r\n".toList)

/-- The bytes written by `_404_not_found` / `_403_forbidden` /
`_405_method_not_allowed` (lines 87-100): response line plus the default
header block. -/
def http_error_response (code : Nat) : List Char :=
  http_write_response_line code ++ http_write_headers []

/-- `HttpServerProtocol.handle_HEAD` (lines 109-115): 200 plus headers
with `Content-Length` overridden by the file size. -/
def http_head_response (fs : Fsys) (p : List Char) : List Char :=
  http_write_response_line 200 ++
    http_write_headers [("Content-Length".toList, natChars (fs.size p))]

/-- `HttpServerProtocol.handle_GET` (lines 102-107): the `handle_HEAD`
bytes followed by the file body. -/
def http_get_response (fs : Fsys) (p : List Char) : List Char :=
  http_head_response fs p ++ fs.content p

/-- `HttpServerProtocol.data_received` after `_parse_request`
(src/async_app/server.py lines 36-56): validate the path first (404 on
failure), then the method — `POST` gives 403, anything other than
`GET`/`HEAD` gives 405, otherwise dispatch to `handle_GET`/`handle_HEAD`;
every branch closes the transport.  Returns the bytes written and the
closed flag. -/
def respond (fs : Fsys) (cwd command rawPath : List Char) :
    List Char × Bool :=
  let v := validate_path fs cwd rawPath
  if v.2 = false then (http_error_response 404, true)
  else if command = "POST".toList then (http_error_response 403, true)
  else if command ≠ "GET".toList ∧ command ≠ "HEAD".toList then
    (http_error_response 405, true)
  else if command = "GET".toList then (http_get_response fs v.1, true)
  else (http_head_response fs v.1, true)

/-- `HttpServerProtocol.data_received` (lines 33-56): parse the chunk —
an exception raised by `_parse_request` propagates out of the callback
unhandled (`Except.error`, nothing written) — then respond and close. -/
def http_data_received (fs : Fsys) (cwd data : List Char) :
    Except (List Char) (List Char × Bool) := do
  let cp ← parse_request data
  Except.ok (respond fs cwd cp.1 cp.2)

/-! ### Response writers of the synchronous handler (`src/server.py`) -/

/-- `self.headers` of `TestHTTPHandler.__init__` (src/server.py lines
48-52) — note the misspelled `Content-Lenght` key in the source. -/
def sync_headers_default : List (List Char × List Char) :=
  [("Content-Type".toList, "text/html".toList),
   ("Content-Lenght".toList, "0".toList),
   ("Connection".toList, "close".toList)]

/-- `TestHTTPHandler._write_response_line` (src/server.py lines 154-157)
— the f-string carries no `\r\n` terminator. -/
def sync_write_response_line (code : Nat) : List Char :=
  ("HTTP/1.1 ".toList) ++ natChars code ++ ' ' :: http_phrase code

/-- `TestHTTPHandler._write_headers` (src/server.py lines 159-165). -/
def sync_write_headers (upd : List (List Char × List Char)) : List Char :=
  header_lines (dict_update sync_headers_default upd) ++ ("\r\n\r\n".toList)

/-- The bytes written by `TestHTTPHandler._404_not_found` and its 403/405
siblings (src/server.py lines 93-107). -/
def sync_error_response (code : Nat) : List Char :=
  sync_write_response_line code ++ sync_write_headers []

/-- An environment with no files at all. -/
def fs_empty : Fsys :=
  { isDir := fun _ => false, pathExists := fun _ => false,
    size := fun _ => 0, content := fun _ => [] }

/-- An environment in which every path resolves to an existing empty
file. -/
def fs_allFiles : Fsys :=
  { isDir := fun _ => false, pathExists := fun _ => true,
    size := fun _ => 0, content := fun _ => [] }

theorem splitSub_eq_append {sep : List Char} :
    ∀ {l pre post : List Char},
      splitSub sep l = Option.some (pre, post) → l = pre ++ sep ++ post := by
  intro l
  induction l with
  | nil => intro pre post h; simp [splitSub] at h
  | cons c cs ih =>
      intro pre post h
      rw [splitSub] at h
      by_cases hp : sep.isPrefixOf (c :: cs)
      · rw [if_pos hp] at h
        obtain ⟨t, ht⟩ := List.isPrefixOf_iff_prefix.mp hp
        cases h
        rw [← ht, List.drop_left]
        simp [← ht]
      · rw [if_neg hp] at h
        cases hs : splitSub sep cs with
        | none => rw [hs] at h; simp at h
        | some pr =>
            rw [hs] at h
            cases pr with
            | mk pre' post' =>
                simp only [Option.some.injEq, Prod.mk.injEq] at h
                obtain ⟨h1, h2⟩ := h
                subst h2
                rw [← h1]
                simpa using ih hs

theorem infixOccurrence_of_splitSub {sep l : List Char} {pr : List Char × List Char}
    (h : splitSub sep l = Option.some pr) : sep <:+: l := by
  cases pr with
  | mk pre post =>
      exact ⟨pre, post, (splitSub_eq_append h).symm⟩

/-! ### Claim theorems -/

theorem dispatch_ok_shape (funcs : List (String × PyFn)) (request : PyVal)
    (r : PyVal) (h : dispatch funcs request = Except.ok r) :
    (∃ v, r = PyVal.dict [("result", v)]) ∨
      (∃ m, r = PyVal.dict [("error", PyVal.str m)]) := by
  simp only [dispatch, execute_function] at h
  repeat' split at h
  all_goals
    first
      | exact Except.noConfusion h
      | (injection h with h'; subst h'; exact Or.inl ⟨_, rfl⟩)
      | (injection h with h'; subst h'; exact Or.inr ⟨_, rfl⟩)

theorem handle_lineGen_shape (funcs : List (String × PyFn))
    (parsed : Except String PyVal) :
    (∃ v, handle_lineGen funcs parsed = PyVal.dict [("result", v)]) ∨
      (∃ m, handle_lineGen funcs parsed = PyVal.dict [("error", PyVal.str m)]) := by
  unfold handle_lineGen
  cases parsed with
  | error e => exact Or.inr ⟨_, rfl⟩
  | ok v =>
      rw [show (Except.ok v).bind (dispatch funcs) = dispatch funcs v from rfl]
      cases hd : dispatch funcs v with
      | error e => exact Or.inr ⟨_, rfl⟩
      | ok r =>
          rcases dispatch_ok_shape funcs v r hd with ⟨w, hw⟩ | ⟨m, hm⟩
          · exact Or.inl ⟨w, hw⟩
          · exact Or.inr ⟨m, hm⟩

/-- C1: once a connection's first dispatch task completes, its response
is written and the transport closed in the same atomic step; every later
completion writes onto a closed transport (the write is discarded) and
re-closes it.  Hence over any completion order `rs` of the concurrently
dispatched frames, the peer observes exactly the first-completed
response — at most one response per connection — and the final state
equals the state right after the first write. -/
theorem rpc_close_after_first_response (rs : List PyVal) :
    (run_completions freshTransport rs).written = rs.take 1
    ∧ (run_completions freshTransport rs).closed = !rs.isEmpty
    ∧ ∀ r rs', run_completions freshTransport (r :: rs') =
        (freshTransport.write r).close := by
  have hcons : ∀ (r : PyVal) (rs' : List PyVal),
      run_completions freshTransport (r :: rs') =
        (freshTransport.write r).close := by
    intro r rs'
    have hstep : run_completions freshTransport (r :: rs') =
        run_completions ((freshTransport.write r).close) rs' := rfl
    rw [hstep]
    exact run_completions_closed _ rfl rs'
  refine ⟨?_, ?_, hcons⟩ <;>
    cases rs with
    | nil => rfl
    | cons r rs' => rw [hcons r rs']; rfl

/-- C2: for every parse outcome of an input line and every registry, the
response produced by the request handler is a JSON object whose key list
is exactly `["result"]` or exactly `["error"]` — never both keys, never
neither. -/
theorem rpc_response_exactly_one_key (funcs : List (String × PyFn))
    (parsed : Except String PyVal) :
    ∃ fields, handle_lineGen funcs parsed = PyVal.dict fields
      ∧ (fields.map (fun kv => kv.1) = ["result"]
          ∨ fields.map (fun kv => kv.1) = ["error"]) := by
  rcases handle_lineGen_shape funcs parsed with ⟨v, hv⟩ | ⟨m, hm⟩
  · exact ⟨[("result", v)], hv, Or.inl rfl⟩
  · exact ⟨[("error", PyVal.str m)], hm, Or.inr rfl⟩

/-- C3: for a frame whose parse failed, parsed to a non-object, or
parsed to an object without `"func_name"`, the handler produces an
error-keyed response, and the result is the same whatever functions are
registered — so no registered function is ever invoked for such a
frame. -/
theorem rpc_malformed_frame_error (funcs : List (String × PyFn))
    (parsed : Except String PyVal) (h : malformedFrame parsed) :
    (∃ msg, handle_lineGen funcs parsed = PyVal.dict [("error", PyVal.str msg)])
    ∧ handle_lineGen funcs parsed = handle_lineGen [] parsed := by
  cases parsed with
  | error e => exact ⟨⟨"bad request: " ++ e, rfl⟩, rfl⟩
  | ok v =>
      cases v with
      | dict fs =>
          have hget : pyGet fs "func_name" = Option.none := h
          have hdisp : ∀ fcs : List (String × PyFn),
              handle_lineGen fcs (Except.ok (PyVal.dict fs)) =
                PyVal.dict [("error",
                  PyVal.str ("unknown function " ++ pyRepr PyVal.none))] := by
            intro fcs
            have hd : dispatch fcs (PyVal.dict fs) =
                Except.ok (PyVal.dict [("error",
                  PyVal.str ("unknown function " ++ pyRepr PyVal.none))]) := by
              simp only [dispatch]
              rw [hget]
              simp [Option.getD]
            unfold handle_lineGen
            rw [show (Except.ok (PyVal.dict fs)).bind (dispatch fcs) =
              dispatch fcs (PyVal.dict fs) from rfl, hd]
          exact ⟨⟨_, hdisp funcs⟩, by rw [hdisp funcs, hdisp []]⟩
      | none => exact ⟨⟨_, rfl⟩, rfl⟩
      | bool b => exact ⟨⟨_, rfl⟩, rfl⟩
      | int n => exact ⟨⟨_, rfl⟩, rfl⟩
      | str s => exact ⟨⟨_, rfl⟩, rfl⟩
      | list xs => exact ⟨⟨_, rfl⟩, rfl⟩

theorem rpc_malformed_frame_error_witness :
    (∃ msg, handle_lineGen FUNCTIONS (Except.ok (PyVal.dict [])) =
        PyVal.dict [("error", PyVal.str msg)])
    ∧ handle_lineGen FUNCTIONS (Except.ok (PyVal.dict [])) =
        handle_lineGen [] (Except.ok (PyVal.dict [])) :=
  rpc_malformed_frame_error FUNCTIONS (Except.ok (PyVal.dict [])) rfl

/-- C4: a well-formed request whose `func_name` is a string not in the
registry yields the error response naming the unknown function (the
Python repr of the name), carries no `result` key, and is delivered to
the peer through the normal write-then-close path. -/
theorem rpc_unknown_function_error (fields : List (String × PyVal))
    (name : String)
    (hget : pyGet fields "func_name" = Option.some (PyVal.str name))
    (hmem : FUNCTIONS.any (fun kv => kv.1 == name) = false) :
    handle_line (Except.ok (PyVal.dict fields)) =
      PyVal.dict [("error",
        PyVal.str ("unknown function " ++ pyRepr (PyVal.str name)))]
    ∧ hasKey (handle_line (Except.ok (PyVal.dict fields))) "result" = false
    ∧ (run_completions freshTransport
        [handle_line (Except.ok (PyVal.dict fields))]).written =
      [PyVal.dict [("error",
        PyVal.str ("unknown function " ++ pyRepr (PyVal.str name)))]] := by
  have hresp : handle_line (Except.ok (PyVal.dict fields)) =
      PyVal.dict [("error",
        PyVal.str ("unknown function " ++ pyRepr (PyVal.str name)))] := by
    have hd : dispatch FUNCTIONS (PyVal.dict fields) =
        Except.ok (PyVal.dict [("error",
          PyVal.str ("unknown function " ++ pyRepr (PyVal.str name)))]) := by
      simp only [dispatch]
      rw [hget]
      simp [Option.getD, hmem]
    unfold handle_line handle_lineGen
    rw [show (Except.ok (PyVal.dict fields)).bind (dispatch FUNCTIONS) =
      dispatch FUNCTIONS (PyVal.dict fields) from rfl, hd]
  refine ⟨hresp, ?_, ?_⟩
  · rw [hresp]
    rfl
  · rw [hresp]
    rfl

theorem rpc_unknown_function_error_witness :
    handle_line (Except.ok (PyVal.dict [("func_name", PyVal.str "nope")])) =
      PyVal.dict [("error",
        PyVal.str ("unknown function " ++ pyRepr (PyVal.str "nope")))]
    ∧ hasKey (handle_line (Except.ok (PyVal.dict
        [("func_name", PyVal.str "nope")]))) "result" = false
    ∧ (run_completions freshTransport
        [handle_line (Except.ok (PyVal.dict
          [("func_name", PyVal.str "nope")]))]).written =
      [PyVal.dict [("error",
        PyVal.str ("unknown function " ++ pyRepr (PyVal.str "nope")))]] :=
  rpc_unknown_function_error [("func_name", PyVal.str "nope")] "nope" rfl rfl

/-- C9: an `"add"` request with two numeric positional arguments always
produces `{"result": a + b}` — the handler is a pure function of the
frame (the registry is immutable while serving), so the outcome cannot
depend on prior requests on other connections. -/
theorem rpc_add_result (a b : Int) :
    handle_line (Except.ok (PyVal.dict
      [("func_name", PyVal.str "add"),
       ("args", PyVal.list [PyVal.int a, PyVal.int b])])) =
      PyVal.dict [("result", PyVal.int (a + b))] := rfl

/-- C5: draining the connection buffer after a chunk arrives (a) yields
nothing and keeps all bytes when no `\n` delimiter is present, (b) for a
buffer holding several delimited segments, yields every stripped
non-empty segment in arrival order in a single call, leaving the partial
trailing segment buffered, and (c) every yielded frame is non-empty
and does not end in `\r` or any other stripped whitespace character. -/
theorem rpc_decoder_frames (buf data : List Char) :
    ('\n' ∉ buf ++ data → rpc_data_received buf data = (buf ++ data, []))
    ∧ (∀ ls rest, (∀ l ∈ ls, '\n' ∉ l) → '\n' ∉ rest →
        rpc_data_received [] (joinNL ls ++ rest) =
          (rest, (ls.map pyStrip).filter (fun l => l != [])))
    ∧ (∀ f ∈ (rpc_data_received buf data).2,
        f ≠ [] ∧ ∀ c, f.getLast? = some c → isSpace c = false) := by
  refine ⟨?_, ?_, ?_⟩
  · intro h
    unfold rpc_data_received
    exact drain_no_newline _ h
  · intro ls rest hls hrest
    unfold rpc_data_received
    simpa using drain_join ls rest hls hrest
  · intro f hf
    exact drain_frames_aux (buf ++ data).length (buf ++ data) le_rfl f hf

theorem rpc_decoder_frames_witness :
    rpc_data_received ['a'] ['b'] = (['a', 'b'], [])
    ∧ rpc_data_received [] (joinNL [['a', '\r'], []] ++ ['z']) =
        (['z'], [['a']])
    ∧ (['a'] ≠ ([] : List Char)
        ∧ ∀ c, (['a'] : List Char).getLast? = some c → isSpace c = false) := by
  have h1 := (rpc_decoder_frames ['a'] ['b']).1 (by decide)
  have h2 := (rpc_decoder_frames [] (joinNL [['a', '\r'], []] ++ ['z'])).2.1
    [['a', '\r'], []] ['z'] (by decide) (by decide)
  have h2' : rpc_data_received [] (joinNL [['a', '\r'], []] ++ ['z']) =
      (['z'], [['a']]) := by rw [h2]; rfl
  have hmem : ['a'] ∈ (rpc_data_received [] (joinNL [['a', '\r'], []] ++ ['z'])).2 := by
    rw [h2']
    exact List.mem_singleton.mpr rfl
  have h3 := (rpc_decoder_frames [] (joinNL [['a', '\r'], []] ++ ['z'])).2.2
    ['a'] hmem
  exact ⟨h1, h2', h3⟩

/-- C7 counterexample: on a filesystem with no matching file, a
`POST /anything` request does NOT yield 403 — `data_received` checks
`_validate_path` before the method, so the handler writes the 404
response (and closes), not the 403 one. -/
theorem http_post_missing_path_counterexample :
    http_data_received fs_empty ("/srv".toList)
        ("POST /anything HTTP/1.1\r\n\r\n".toList) =
      Except.ok (http_error_response 404, true)
    ∧ http_error_response 404 ≠ http_error_response 403 :=
  ⟨rfl, by decide⟩

/-- C7 (amended): for a `POST` request, the responder returns 403
exactly when the resolved path passes validation; when path validation
fails, the 404 branch runs first and the response is 404 regardless of
the method.  Either way the connection is closed. -/
theorem http_post_status (fs : Fsys) (cwd rawPath : List Char) :
    ((validate_path fs cwd rawPath).2 = true →
      respond fs cwd ("POST".toList) rawPath = (http_error_response 403, true))
    ∧ ((validate_path fs cwd rawPath).2 = false →
      respond fs cwd ("POST".toList) rawPath = (http_error_response 404, true)) := by
  constructor
  · intro h
    simp [respond, h]
  · intro h
    simp [respond, h]

theorem http_post_status_witness :
    respond fs_allFiles ("/srv".toList) ("POST".toList) ("/x".toList) =
      (http_error_response 403, true)
    ∧ respond fs_empty ("/srv".toList) ("POST".toList) ("/x".toList) =
      (http_error_response 404, true) :=
  ⟨(http_post_status fs_allFiles ("/srv".toList) ("/x".toList)).1 rfl,
   (http_post_status fs_empty ("/srv".toList) ("/x".toList)).2 rfl⟩

/-- C8 (code bug in `src/server.py`): `TestHTTPHandler` does not emit
the claimed wire shape.  Its `_write_response_line` omits the `\r\n`
terminator, so the first header is concatenated directly onto the status
line, and its default header dict misspells the length header as
`Content-Lenght`, so error responses carry no `Content-Length` header at
all.  The asyncio sibling `HttpServerProtocol` emits exactly the claimed
shape for the same response, showing the intent. -/
theorem http_response_shape_bug :
    sync_error_response 404 =
      ("HTTP/1.1 404 Not FoundContent-Type: text/html\r\nContent-Lenght: 0\r\nConnection: close\r\n\r\n".toList)
    ∧ (sync_error_response 404).take 24 ≠ ("HTTP/1.1 404 Not Found\r\n".toList)
    ∧ containsSub ("Content-Length".toList) (sync_error_response 404) = false
    ∧ http_error_response 404 =
      ("HTTP/1.1 404 Not Found\r\nContent-Type: text/html\r\nContent-Length: 0\r\nConnection: close\r\n\r\n".toList) := by
  refine ⟨?_, ?_, ?_, ?_⟩ <;> decide

/-- C10: `HttpServerProtocol._parse_request` starts with
`data.split("\r\n", 1)` unpacked into two names, so any received chunk
without a `"\r\n"` makes the unpacking raise `ValueError` inside
`data_received`; the exception leaves the protocol callback unhandled
(`Except.error`), nothing is written, and no waiting for further bytes
happens. -/
theorem http_requires_crlf_in_first_chunk (fs : Fsys) (cwd data : List Char)
    (h : ¬ ("\r\n".toList <:+: data)) :
    http_data_received fs cwd data =
      Except.error
        ("ValueError: not enough values to unpack (expected 2, got 1)".toList) := by
  have hs : splitSub ("\r\n".toList) data = Option.none := by
    cases hss : splitSub ("\r\n".toList) data with
    | none => rfl
    | some pr => exact absurd (infixOccurrence_of_splitSub hss) h
  unfold http_data_received parse_request
  rw [hs]
  rfl

theorem http_requires_crlf_in_first_chunk_witness :
    http_data_received fs_empty ("/srv".toList) ("GET / HTTP/1.1".toList) =
      Except.error
        ("ValueError: not enough values to unpack (expected 2, got 1)".toList) :=
  http_requires_crlf_in_first_chunk fs_empty ("/srv".toList)
    ("GET / HTTP/1.1".toList) (by decide)
